import Mathlib

/-!
Verification of the learning-path generation core of the QualifyAI backend.

The definitions below are a shallow embedding of
`app/services/learning_path/learning_path_ai_service.py` and
`app/services/learning_path/learning_path_service.py`:

* the pydantic output models become Lean structures;
* the structured-completion client (Groq behind `_make_groq_request`) becomes
  an abstract record of functions returning `Option` (`none` models any
  raised exception of a completion call);
* Python exception flow becomes explicit `Except` values: a `try/except`
  block is a `match` on the `Except` result of the embedded body;
* Python dicts that are iterated in insertion order become association lists.
-/

/-! ## String helpers mirroring the Python string operations used -/

/-- Python `str.lower()` restricted to the ASCII mapping performed per character. -/
def pyLower (s : String) : String :=
  ⟨s.data.map Char.toLower⟩

/-- Python `str.replace(' ', rep)`: replace every space character by `rep`. -/
def replaceSpace (s : String) (rep : String) : String :=
  ⟨s.data.flatMap (fun c => if c = ' ' then rep.data else [c])⟩

/-- Does the character list `p` occur at the head of `l`? -/
def matchesAt : List Char → List Char → Bool
  | [], _ => true
  | _ :: _, [] => false
  | p :: ps, c :: cs => p == c && matchesAt ps cs

/-- Does the pattern occur anywhere inside the list? -/
def hasSubAux (pat : List Char) : List Char → Bool
  | [] => matchesAt pat []
  | c :: cs => matchesAt pat (c :: cs) || hasSubAux pat cs

/-- Python `pat in s` on strings: substring containment. -/
def containsSub (s pat : String) : Bool :=
  hasSubAux pat.data s.data

/-! ## Data model (`app/services/learning_path/models.py`, `app/models/learning_path.py`) -/

/-- Output model for a learning resource (`LearningResourceOutput`). -/
structure LearningResourceOutput where
  type : String
  name : String
  link : String
  rating : Option Rat := none
  description : Option String := none
  isFree : Bool := true
  estimatedTime : Option String := none
deriving DecidableEq

/-- A subtopic within a learning module (`SubTopic`). -/
structure SubTopic where
  title : String
  description : String
  resources : List LearningResourceOutput
deriving DecidableEq

/-- Output model for a learning module (`LearningModuleOutput`). -/
structure LearningModuleOutput where
  id : Int
  title : String
  timeline : String
  difficulty : String
  description : String
  topics : List String
  resources : List LearningResourceOutput
  tips : String
  subtopics : Option (List SubTopic) := none
  prerequisites : Option (List String) := none
  learningObjectives : Option (List String) := none
  projects : Option (List String) := none
deriving DecidableEq

/-- Output model for a complete learning path (`LearningPathOutput`). -/
structure LearningPathOutput where
  title : String
  description : String
  estimatedTime : String
  modules : List LearningModuleOutput
  niche : String
  overview : Option String := none
  prerequisites : Option (List String) := none
  intendedAudience : Option String := none
  careerOutcomes : Option (List String) := none
deriving DecidableEq

/-- Output model for a detailed module expansion (`DetailedModuleOutput`). -/
structure DetailedModuleOutput where
  moduleId : Int
  subtopics : List SubTopic
  prerequisites : List String
  learningObjectives : List String
  projects : List String
  detailedDescription : String
deriving DecidableEq

/-- Output model for verified resources (`ResourceVerificationOutput`). -/
structure ResourceVerificationOutput where
  moduleId : Int
  resources : List LearningResourceOutput
deriving DecidableEq

/-- Single question for learning path personalization (`NicheQuestionOutput`). -/
structure NicheQuestionOutput where
  id : String
  label : String
  options : List String
deriving DecidableEq

/-- Output model for questions about a learning path niche (`NicheQuestionsOutput`). -/
structure NicheQuestionsOutput where
  questions : List NicheQuestionOutput
deriving DecidableEq

/-- Question to customize the learning path (`PathQuestion` in `app/models/learning_path.py`). -/
structure PathQuestion where
  id : String
  label : String
  options : List String
deriving DecidableEq

/-- Industry or technology niche (`Niche` in `app/models/learning_path.py`). -/
structure Niche where
  id : Int
  name : String
  icon : String
  description : String
deriving DecidableEq

/-! ## The completion client and exception model -/

/-- Abstract behaviour of the structured-completion service, one field per
distinct `_make_groq_request` call site of the AI service.  `none` models the
call raising (network failure, provider error, schema mismatch). -/
structure CompletionClient where
  initialPath : String → List (String × String) → Option LearningPathOutput
  detailedModule : String → LearningModuleOutput → List (String × String) → LearningPathOutput → Option DetailedModuleOutput
  verifiedResources : String → Int → List String → Option ResourceVerificationOutput

/-- Exceptions that can flow through the embedded orchestration code. -/
inductive Err where
  | completionError
  | indexError
deriving DecidableEq

/-! ## LearningPathAIService (`learning_path_ai_service.py`) -/

/-- `LearningPathAIService._generate_fallback_questions`. -/
def generate_fallback_questions (niche_name : String) : List PathQuestion :=
  [ { id := "experience_level",
      label := "What is your current experience level in " ++ niche_name ++ "?",
      options :=
        [ "Complete beginner with no experience",
          "Beginner with some basic knowledge",
          "Intermediate with practical experience",
          "Advanced with significant experience",
          "Expert looking to specialize further" ] },
    { id := "learning_goal",
      label := "What is your primary goal for learning about " ++ niche_name ++ "?",
      options :=
        [ "Career transition into this field",
          "Skill enhancement for current role",
          "Personal interest and growth",
          "Academic requirement or research",
          "Entrepreneurial venture or project" ] },
    { id := "time_commitment",
      label := "How much time can you commit to learning each week?",
      options :=
        [ "Less than 5 hours",
          "5-10 hours",
          "10-20 hours",
          "20+ hours",
          "Flexible/variable schedule" ] },
    { id := "learning_style",
      label := "What learning approach do you prefer?",
      options :=
        [ "Hands-on projects and practical application",
          "Video courses and tutorials",
          "Reading books and documentation",
          "Interactive exercises and quizzes",
          "Combination of different methods" ] },
    { id := "expertise_focus",
      label := "Which aspect of " ++ niche_name ++ " are you most interested in?",
      options :=
        [ "Fundamental principles and theory",
          "Practical implementation and tools",
          "Advanced techniques and specialization",
          "Industry best practices and standards",
          "Innovation and emerging trends" ] } ]

/-- `LearningPathAIService.generate_questions_for_niche`: one completion call;
on failure, fall back to the standard questions.  `qc` is the completion
client restricted to the question request. -/
def generate_questions_for_niche (qc : String → Option NicheQuestionsOutput)
    (niche_name : String) : List PathQuestion :=
  match qc niche_name with
  | some response =>
      response.questions.map (fun q => { id := q.id, label := q.label, options := q.options })
  | none => generate_fallback_questions niche_name

/-- `LearningPathAIService._generate_initial_path`: one completion call;
on failure the method re-raises. -/
def generate_initial_path (client : CompletionClient) (niche_name : String)
    (answers : List (String × String)) : Except Err LearningPathOutput :=
  match client.initialPath niche_name answers with
  | some response => Except.ok response
  | none => Except.error Err.completionError

/-- One synthesized subtopic of the `_generate_detailed_module` fallback:
built from a topic string alone, with a generic explanation and a single
placeholder resource whose link is template-derived from the topic. -/
def fallback_subtopic (topic : String) : SubTopic :=
  { title := topic,
    description := "This subtopic covers " ++ topic ++ " in detail, providing foundational knowledge and practical applications.",
    resources :=
      [ { type := "documentation",
          name := "Official " ++ topic ++ " Documentation",
          link := "https://example.org/" ++ replaceSpace (pyLower topic) "-",
          description := some ("The official documentation for " ++ topic),
          isFree := true } ] }

/-- `LearningPathAIService._generate_detailed_module`: one completion call;
on failure, synthesize a basic `DetailedModuleOutput` from the module's own
topics.  The synthesis reads `module.topics[0]` for the projects entry, so it
raises `IndexError` when the topics list is empty. -/
def generate_detailed_module (client : CompletionClient) (niche_name : String)
    (module : LearningModuleOutput) (user_answers : List (String × String))
    (learning_path_context : LearningPathOutput) : Except Err DetailedModuleOutput :=
  match client.detailedModule niche_name module user_answers learning_path_context with
  | some response => Except.ok response
  | none =>
    let basic_subtopics : List SubTopic := module.topics.map fallback_subtopic
    match module.topics with
    | [] => Except.error Err.indexError
    | topic0 :: _ =>
      Except.ok
        { moduleId := module.id,
          subtopics := basic_subtopics,
          prerequisites := ["Basic understanding of programming concepts"],
          learningObjectives := module.topics.map (fun topic => "Understand the fundamentals of " ++ topic),
          projects := ["Build a simple project using " ++ topic0],
          detailedDescription := module.description }

/-- The three placeholder resources synthesized per subtopic by the
`_generate_verified_resources` fallback. -/
def fallback_subtopic_resources (subtopic : String) : List LearningResourceOutput :=
  [ { type := "documentation",
      name := "Official " ++ subtopic ++ " Documentation",
      link := "https://developer.mozilla.org/en-US/docs/Web/" ++ replaceSpace (pyLower subtopic) "_",
      description := some ("Comprehensive documentation for " ++ subtopic),
      isFree := true,
      estimatedTime := some "1-2 hours" },
    { type := "tutorial",
      name := subtopic ++ " Tutorial for Beginners",
      link := "https://www.freecodecamp.org/news/" ++ replaceSpace (pyLower subtopic) "-" ++ "-tutorial/",
      description := some ("Step-by-step tutorial on " ++ subtopic ++ " with practical examples"),
      isFree := true,
      estimatedTime := some "3-4 hours" },
    { type := "video",
      name := subtopic ++ " Crash Course",
      link := "https://www.youtube.com/results?search_query=" ++ replaceSpace (pyLower subtopic) "+" ++ "+tutorial",
      description := some ("Video tutorials explaining " ++ subtopic ++ " concepts"),
      isFree := true,
      estimatedTime := some "1-2 hours" } ]

/-- `LearningPathAIService._generate_verified_resources`: one completion call;
on failure, synthesize three placeholder resources per subtopic.  This
function never raises. -/
def generate_verified_resources (client : CompletionClient) (niche_name : String)
    (module_id : Int) (subtopics : List String) : Except Err ResourceVerificationOutput :=
  match client.verifiedResources niche_name module_id subtopics with
  | some response => Except.ok response
  | none =>
      Except.ok
        { moduleId := module_id,
          resources := subtopics.flatMap fallback_subtopic_resources }

/-- Body of the per-module `try` block inside
`LearningPathAIService.generate_learning_path` (lines 180-212). -/
def enhance_module_attempt (client : CompletionClient) (niche_name : String)
    (answers : List (String × String)) (initial_path : LearningPathOutput)
    (module : LearningModuleOutput) : Except Err LearningModuleOutput :=
  match generate_detailed_module client niche_name module answers initial_path with
  | Except.error e => Except.error e
  | Except.ok detailed_module =>
  let subtopic_titles :=
    if detailed_module.subtopics.isEmpty then module.topics
    else detailed_module.subtopics.map SubTopic.title
  match generate_verified_resources client niche_name module.id subtopic_titles with
  | Except.error e => Except.error e
  | Except.ok verified_resources =>
  Except.ok
    { id := module.id,
      title := module.title,
      timeline := module.timeline,
      difficulty := module.difficulty,
      description := detailed_module.detailedDescription,
      topics := module.topics,
      resources := verified_resources.resources,
      tips := module.tips,
      subtopics := some detailed_module.subtopics,
      prerequisites := some detailed_module.prerequisites,
      learningObjectives := some detailed_module.learningObjectives,
      projects := some detailed_module.projects }

/-- Per-module enhancement with its `except` clause: on any failure, the
original module is used unchanged. -/
def enhance_module (client : CompletionClient) (niche_name : String)
    (answers : List (String × String)) (initial_path : LearningPathOutput)
    (module : LearningModuleOutput) : LearningModuleOutput :=
  match enhance_module_attempt client niche_name answers initial_path module with
  | Except.ok enhanced_module => enhanced_module
  | Except.error _ => module

/-- Body of the outer `try` block of
`LearningPathAIService.generate_learning_path` (lines 171-233). -/
def generate_learning_path_attempt (client : CompletionClient) (niche_name : String)
    (answers : List (String × String)) : Except Err LearningPathOutput :=
  match generate_initial_path client niche_name answers with
  | Except.error e => Except.error e
  | Except.ok initial_path =>
  let enhanced_modules := initial_path.modules.map (enhance_module client niche_name answers initial_path)
  Except.ok
    { title := initial_path.title,
      description := initial_path.description,
      estimatedTime := initial_path.estimatedTime,
      modules := enhanced_modules,
      niche := initial_path.niche,
      overview := initial_path.overview,
      prerequisites := initial_path.prerequisites,
      intendedAudience := initial_path.intendedAudience,
      careerOutcomes := initial_path.careerOutcomes }

/-- `LearningPathAIService._create_fallback_learning_path`, experience-level
extraction (lines 602-610): scan answers in insertion order; at the first key
containing `"experience"`, classify its value and stop. -/
def extract_experience_level : List (String × String) → String
  | [] => "beginner"
  | (key, value) :: rest =>
    if containsSub (pyLower key) "experience" then
      if containsSub (pyLower value) "advanced" || containsSub (pyLower value) "expert" then
        "advanced"
      else if containsSub (pyLower value) "intermediate" then
        "intermediate"
      else "beginner"
    else extract_experience_level rest

/-- The fundamentals module of the framework-level fallback (id is literally 1). -/
def fallback_fundamentals_module (niche_name : String) : LearningModuleOutput :=
  { id := 1,
    title := niche_name ++ " Fundamentals",
    timeline := "2-4 weeks",
    difficulty := "Beginner",
    description := "Learn the core concepts and fundamentals of " ++ niche_name ++ " to build a solid foundation.",
    topics := [niche_name ++ " Basics", "Core Concepts", "Fundamental Tools"],
    resources :=
      [ { type := "tutorial",
          name := niche_name ++ " for Beginners",
          link := "https://www.freecodecamp.org/news/" ++ replaceSpace (pyLower niche_name) "-" ++ "-for-beginners/",
          description := some ("Comprehensive tutorial covering " ++ niche_name ++ " basics"),
          isFree := true },
        { type := "video",
          name := niche_name ++ " Crash Course",
          link := "https://www.youtube.com/results?search_query=" ++ replaceSpace (pyLower niche_name) "+" ++ "+crash+course",
          description := some ("Video tutorial series on " ++ niche_name),
          isFree := true },
        { type := "documentation",
          name := niche_name ++ " Documentation",
          link := "https://developer.mozilla.org/en-US/docs/Web",
          description := some "Official documentation and guides",
          isFree := true } ],
    tips := "Focus on understanding the core principles before moving to more advanced topics." }

/-- The intermediate module of the framework-level fallback. -/
def fallback_intermediate_module (niche_name : String) (module_id : Int) : LearningModuleOutput :=
  { id := module_id,
    title := "Intermediate " ++ niche_name ++ " Concepts",
    timeline := "3-6 weeks",
    difficulty := "Intermediate",
    description := "Build on your foundational knowledge with more advanced " ++ niche_name ++ " concepts and practical applications.",
    topics := ["Advanced Techniques", "Best Practices", "Common Patterns"],
    resources :=
      [ { type := "course",
          name := "Intermediate " ++ niche_name,
          link := "https://www.freecodecamp.org/learn/" ++ replaceSpace (pyLower niche_name) "-",
          description := some ("Free interactive course on intermediate " ++ niche_name ++ " concepts"),
          isFree := true },
        { type := "tutorial",
          name := niche_name ++ " Projects",
          link := "https://github.com/topics/" ++ replaceSpace (pyLower niche_name) "-",
          description := some ("Collection of " ++ niche_name ++ " projects on GitHub"),
          isFree := true },
        { type := "video",
          name := "Intermediate " ++ niche_name ++ " Tutorials",
          link := "https://www.youtube.com/results?search_query=intermediate+" ++ replaceSpace (pyLower niche_name) "+",
          description := some ("Video tutorials for intermediate " ++ niche_name ++ " learners"),
          isFree := true } ],
    tips := "Apply what you learn through hands-on projects to solidify your understanding." }

/-- The advanced module of the framework-level fallback. -/
def fallback_advanced_module (niche_name : String) (module_id : Int) : LearningModuleOutput :=
  { id := module_id,
    title := "Advanced " ++ niche_name ++ " Mastery",
    timeline := "4-8 weeks",
    difficulty := "Advanced",
    description := "Master advanced concepts and specialized areas of " ++ niche_name ++ " for professional development.",
    topics := ["Specialized Techniques", "Performance Optimization", "Industry Best Practices"],
    resources :=
      [ { type := "course",
          name := "Advanced " ++ niche_name ++ " Techniques",
          link := "https://www.edx.org/search?q=" ++ replaceSpace (pyLower niche_name) "+",
          description := some ("Advanced courses on " ++ niche_name ++ " that can be audited for free"),
          isFree := true },
        { type := "github",
          name := niche_name ++ " Advanced Examples",
          link := "https://github.com/search?q=" ++ replaceSpace (pyLower niche_name) "+" ++ "+advanced",
          description := some ("Advanced " ++ niche_name ++ " examples and projects on GitHub"),
          isFree := true },
        { type := "community",
          name := niche_name ++ " Community Resources",
          link := "https://dev.to/t/" ++ replaceSpace (pyLower niche_name) "",
          description := some ("Community articles and discussions on advanced " ++ niche_name ++ " topics"),
          isFree := true } ],
    tips := "Focus on specializing in areas that align with your career goals and interests." }

/-- The practical-application module of the framework-level fallback. -/
def fallback_practical_module (niche_name : String) (module_id : Int) : LearningModuleOutput :=
  { id := module_id,
    title := "Practical " ++ niche_name ++ " Projects",
    timeline := "4-8 weeks",
    difficulty := "Varies",
    description := "Apply your " ++ niche_name ++ " knowledge in real-world projects to build a portfolio and gain practical experience.",
    topics := ["Project Planning", "Implementation", "Deployment", "Testing"],
    resources :=
      [ { type := "project",
          name := niche_name ++ " Project Ideas",
          link := "https://github.com/topics/" ++ replaceSpace (pyLower niche_name) "-" ++ "-projects",
          description := some ("Collection of " ++ niche_name ++ " project ideas and examples"),
          isFree := true },
        { type := "tutorial",
          name := "Project-Based Learning Tutorials",
          link := "https://www.freecodecamp.org/news/tag/projects/",
          description := some "Step-by-step tutorials for building real projects",
          isFree := true },
        { type := "community",
          name := "Open Source Projects",
          link := "https://goodfirstissue.dev/",
          description := some "Find beginner-friendly open source projects to contribute to",
          isFree := true } ],
    tips := "Build a portfolio of projects that demonstrate your skills and knowledge." }

/-- `LearningPathAIService._create_fallback_learning_path` (lines 591-772). -/
def create_fallback_learning_path (niche_name : String)
    (answers : List (String × String)) : LearningPathOutput :=
  let experience_level := extract_experience_level answers
  let modules0 : List LearningModuleOutput :=
    if experience_level = "beginner" ∨ experience_level = "intermediate" then
      [fallback_fundamentals_module niche_name]
    else []
  let modules1 := modules0 ++ [fallback_intermediate_module niche_name ((modules0.length : Int) + 1)]
  let modules2 :=
    if experience_level = "intermediate" ∨ experience_level = "advanced" then
      modules1 ++ [fallback_advanced_module niche_name ((modules1.length : Int) + 1)]
    else modules1
  let modules3 := modules2 ++ [fallback_practical_module niche_name ((modules2.length : Int) + 1)]
  { title := "Comprehensive " ++ niche_name ++ " Learning Path",
    description := "A structured learning journey to master " ++ niche_name ++ " from fundamentals to advanced topics.",
    estimatedTime := toString (8 + 4 * modules3.length) ++ " weeks",
    modules := modules3,
    niche := niche_name,
    overview := some ("This learning path will guide you through mastering " ++ niche_name ++ ", starting with fundamental concepts and progressing to advanced techniques and practical applications."),
    prerequisites := some ["Basic computer skills", "Determination to learn", "Regular time commitment"],
    intendedAudience := some ("This learning path is designed for individuals interested in learning " ++ niche_name ++ " at their own pace, whether for career development or personal growth."),
    careerOutcomes := some [niche_name ++ " Developer", niche_name ++ " Specialist", "Technical Consultant"] }

/-- `LearningPathAIService.generate_learning_path`: the outer `try/except`.
Any exception escaping the body is recovered by the fallback learning path,
so the result is always `Except.ok`. -/
def generate_learning_path (client : CompletionClient) (niche_name : String)
    (answers : List (String × String)) : Except Err LearningPathOutput :=
  match generate_learning_path_attempt client niche_name answers with
  | Except.ok path => Except.ok path
  | Except.error _ => Except.ok (create_fallback_learning_path niche_name answers)

/-! ## LearningPathService (`learning_path_service.py`): niches, questions, cache -/

/-- The fixed niche catalog of `LearningPathService.get_all_niches`.  The
lazily populated `_niches_cache` always holds exactly this constant list. -/
def get_all_niches : List Niche :=
  [ { id := 1, name := "Frontend Development", icon := "🎨",
      description := "Build responsive and interactive web interfaces" },
    { id := 2, name := "Backend Development", icon := "⚙️",
      description := "Create robust server-side applications and APIs" },
    { id := 3, name := "Full Stack Development", icon := "🔧",
      description := "Master both frontend and backend technologies" },
    { id := 4, name := "Mobile App Development", icon := "📱",
      description := "Develop native and cross-platform mobile applications" },
    { id := 5, name := "Data Science", icon := "📊",
      description := "Extract insights from data using statistical analysis" },
    { id := 6, name := "Machine Learning", icon := "🤖",
      description := "Build intelligent systems that learn from data" },
    { id := 7, name := "DevOps", icon := "🚀",
      description := "Streamline development and deployment processes" },
    { id := 8, name := "Cybersecurity", icon := "🔒",
      description := "Protect systems and data from digital threats" },
    { id := 9, name := "Cloud Computing", icon := "☁️",
      description := "Design and manage scalable cloud infrastructure" },
    { id := 10, name := "Game Development", icon := "🎮",
      description := "Create engaging games for various platforms" },
    { id := 11, name := "UI/UX Design", icon := "🎯",
      description := "Design intuitive and user-friendly experiences" },
    { id := 12, name := "Blockchain Development", icon := "⛓️",
      description := "Build decentralized applications and smart contracts" },
    { id := 13, name := "AI/Artificial Intelligence", icon := "🧠",
      description := "Develop intelligent systems and neural networks" },
    { id := 14, name := "Quality Assurance", icon := "✅",
      description := "Ensure software quality through testing and automation" },
    { id := 15, name := "Product Management", icon := "📋",
      description := "Guide product development from concept to launch" } ]

/-- `LearningPathService._get_static_questions_for_niche`. -/
def get_static_questions_for_niche (niche_id : Int) : List PathQuestion :=
  [ { id := "static_" ++ toString niche_id ++ "_1",
      label := "What is your current experience level?",
      options := ["Complete Beginner", "Some Experience", "Intermediate", "Advanced"] },
    { id := "static_" ++ toString niche_id ++ "_2",
      label := "How much time can you dedicate per week?",
      options := ["1-5 hours", "5-10 hours", "10-20 hours", "20+ hours"] },
    { id := "static_" ++ toString niche_id ++ "_3",
      label := "What is your preferred learning style?",
      options := ["Video Tutorials", "Reading Documentation", "Hands-on Projects", "Interactive Courses"] } ]

/-- The cache key string `f"{niche_id}_{use_ai}"`. -/
def cache_key (niche_id : Int) (use_ai : Bool) : String :=
  toString niche_id ++ "_" ++ (if use_ai then "True" else "False")

/-- The only error `get_questions_for_niche` can raise (an `HTTPException`
with status 404). -/
inductive HttpError where
  | notFound (detail : String)
deriving DecidableEq

/-- The `_questions_cache` dict, in insertion-order association-list form. -/
def QuestionsCache : Type := List (String × List PathQuestion)

/-- Outcome of one `get_questions_for_niche` call: the returned value or the
raised error, the cache afterwards, and how many completion-service
invocations the call made. -/
structure QCallResult where
  result : Except HttpError (List PathQuestion)
  cache : QuestionsCache
  serviceCalls : Nat

/-- `LearningPathService.get_questions_for_niche` (lines 74-107): check the
cache, look the niche up in the fixed catalog (404 when absent), generate the
questions (via the completion service when `use_ai`, which counts as one
service invocation even when it internally falls back), and cache them. -/
def get_questions_for_niche (qc : String → Option NicheQuestionsOutput)
    (cache : QuestionsCache) (niche_id : Int) (use_ai : Bool) : QCallResult :=
  let key := cache_key niche_id use_ai
  match List.lookup key cache with
  | some questions => { result := Except.ok questions, cache := cache, serviceCalls := 0 }
  | none =>
    match get_all_niches.find? (fun n => n.id == niche_id) with
    | none =>
      { result := Except.error (HttpError.notFound ("Niche with ID " ++ toString niche_id ++ " not found")),
        cache := cache, serviceCalls := 0 }
    | some niche =>
      let questions :=
        if use_ai then generate_questions_for_niche qc niche.name
        else get_static_questions_for_niche niche_id
      { result := Except.ok questions,
        cache := (key, questions) :: cache,
        serviceCalls := if use_ai then 1 else 0 }

/-- Run a sequence of `get_questions_for_niche` calls against one service
instance, threading the cache and summing completion-service invocations. -/
def run_question_calls (qc : String → Option NicheQuestionsOutput) :
    QuestionsCache → List (Int × Bool) → QuestionsCache × Nat
  | cache, [] => (cache, 0)
  | cache, (niche_id, use_ai) :: rest =>
    let call := get_questions_for_niche qc cache niche_id use_ai
    let next := run_question_calls qc call.cache rest
    (next.1, call.serviceCalls + next.2)

/-! ## Concrete data used by witnesses -/

/-- A sample resource for concrete runs. -/
def sampleResource : LearningResourceOutput :=
  { type := "tutorial", name := "Sample", link := "https://sample.test", isFree := true }

/-- A sample stage-1 module for concrete runs. -/
def sampleModule (i : Int) (topics : List String) : LearningModuleOutput :=
  { id := i, title := "Module " ++ toString i, timeline := "1 week",
    difficulty := "Beginner", description := "A sample module.",
    topics := topics, resources := [sampleResource], tips := "Practice." }

/-- A sample stage-1 framework with two modules. -/
def samplePath : LearningPathOutput :=
  { title := "Sample Path", description := "A sample learning path.",
    estimatedTime := "4 weeks",
    modules := [sampleModule 1 ["Alpha", "Beta"], sampleModule 2 ["Gamma"]],
    niche := "Sample Niche" }

/-- A completion client whose every call fails. -/
def failingClient : CompletionClient :=
  { initialPath := fun _ _ => none,
    detailedModule := fun _ _ _ _ => none,
    verifiedResources := fun _ _ _ => none }

/-- A client where stage 1 succeeds with `samplePath` and everything else fails. -/
def stage1OnlyClient : CompletionClient :=
  { initialPath := fun _ _ => some samplePath,
    detailedModule := fun _ _ _ _ => none,
    verifiedResources := fun _ _ _ => none }

/-- A recognizable stage-2 output used to detect whether stage 2 ran. -/
def distinctiveDM : DetailedModuleOutput :=
  { moduleId := 1,
    subtopics := [{ title := "Distinct Subtopic", description := "Distinct.", resources := [] }],
    prerequisites := ["Distinct prerequisite"],
    learningObjectives := ["Distinct objective"],
    projects := ["Distinct project"],
    detailedDescription := "DISTINCT-DETAIL" }

/-- A recognizable stage-3 output used to detect whether stage 3 ran. -/
def distinctiveRV : ResourceVerificationOutput :=
  { moduleId := 1,
    resources := [{ type := "video", name := "DISTINCT-RES", link := "https://distinct.test", isFree := true }] }

/-- A client whose stage 1 fails while stages 2 and 3 would succeed. -/
def stage1FailsClient : CompletionClient :=
  { initialPath := fun _ _ => none,
    detailedModule := fun _ _ _ _ => some distinctiveDM,
    verifiedResources := fun _ _ _ => some distinctiveRV }

/-- A stage-1 module with an empty topics list. -/
def emptyTopicsModule : LearningModuleOutput := sampleModule 7 []

/-- A stage-1 framework whose single module has no topics. -/
def emptyTopicsPath : LearningPathOutput :=
  { title := "Empty Topics Path", description := "A path whose module has no topics.",
    estimatedTime := "2 weeks", modules := [emptyTopicsModule], niche := "Sample Niche" }

/-- A client that returns `emptyTopicsPath` from stage 1, fails stage 2, and
would succeed at stage 3. -/
def emptyTopicsClient : CompletionClient :=
  { initialPath := fun _ _ => some emptyTopicsPath,
    detailedModule := fun _ _ _ _ => none,
    verifiedResources := fun _ _ _ => some distinctiveRV }

/-! ## General lemmas about the orchestration -/

/-- A successful `enhance_module_attempt` keeps the module id. -/
theorem enhance_module_attempt_id (client : CompletionClient) (niche_name : String)
    (answers : List (String × String)) (initial_path : LearningPathOutput)
    (module : LearningModuleOutput) (em : LearningModuleOutput)
    (h : enhance_module_attempt client niche_name answers initial_path module = Except.ok em) :
    em.id = module.id := by
  unfold enhance_module_attempt at h
  split at h
  · cases h
  · split at h <;>
    · simp only [] at h
      split at h
      · cases h
      · cases h; rfl

/-- `enhance_module` always keeps the module id (both its branches do). -/
theorem enhance_module_id (client : CompletionClient) (niche_name : String)
    (answers : List (String × String)) (initial_path : LearningPathOutput)
    (module : LearningModuleOutput) :
    (enhance_module client niche_name answers initial_path module).id = module.id := by
  unfold enhance_module
  cases hatt : enhance_module_attempt client niche_name answers initial_path module with
  | error e => rfl
  | ok em => exact enhance_module_attempt_id client niche_name answers initial_path module em hatt

/-- When stage 1 succeeds, `generate_learning_path` returns the stage-1
metadata with every module passed through `enhance_module`. -/
theorem generate_learning_path_of_stage1_ok (client : CompletionClient)
    (niche_name : String) (answers : List (String × String))
    (initial_path : LearningPathOutput)
    (h : client.initialPath niche_name answers = some initial_path) :
    generate_learning_path client niche_name answers =
      Except.ok { initial_path with
        modules := initial_path.modules.map (enhance_module client niche_name answers initial_path) } := by
  unfold generate_learning_path generate_learning_path_attempt generate_initial_path
  rw [h]

/-! ## Claim theorems -/

/-- C1: for every niche name, answers map, and completion-client behaviour
(including one that fails on every call), `generate_learning_path` returns a
`LearningPathOutput` value and never propagates an exception to its caller. -/
theorem generate_learning_path_never_raises (client : CompletionClient)
    (niche_name : String) (answers : List (String × String)) :
    ∃ path, generate_learning_path client niche_name answers = Except.ok path := by
  unfold generate_learning_path
  cases generate_learning_path_attempt client niche_name answers with
  | error e => exact ⟨_, rfl⟩
  | ok path => exact ⟨path, rfl⟩

/-- C2: whenever stage 1 succeeds with `initial_path`, the returned draft has
exactly as many modules, and the i-th returned module keeps the id of the
i-th stage-1 module — order preserved no matter which per-unit stages fell
back. -/
theorem generate_learning_path_preserves_stage1_order (client : CompletionClient)
    (niche_name : String) (answers : List (String × String))
    (initial_path : LearningPathOutput)
    (h : client.initialPath niche_name answers = some initial_path) :
    ∃ path, generate_learning_path client niche_name answers = Except.ok path ∧
      path.modules.length = initial_path.modules.length ∧
      ∀ i (h1 : i < path.modules.length) (h2 : i < initial_path.modules.length),
        (path.modules.get ⟨i, h1⟩).id = (initial_path.modules.get ⟨i, h2⟩).id := by
  refine ⟨_, generate_learning_path_of_stage1_ok client niche_name answers initial_path h, ?_, ?_⟩
  · simp
  · intro i h1 h2
    simp [enhance_module_id]

/-- C2 witness: a concrete client whose stage 1 returns `samplePath` while
both per-unit stages fail. -/
theorem generate_learning_path_preserves_stage1_order_witness :
    ∃ path, generate_learning_path stage1OnlyClient "Sample Niche" [] = Except.ok path ∧
      path.modules.length = samplePath.modules.length ∧
      ∀ i (h1 : i < path.modules.length) (h2 : i < samplePath.modules.length),
        (path.modules.get ⟨i, h1⟩).id = (samplePath.modules.get ⟨i, h2⟩).id :=
  generate_learning_path_preserves_stage1_order stage1OnlyClient "Sample Niche" [] samplePath rfl

/-- When the stage-2 completion call fails and the module has at least one
topic, `_generate_detailed_module` returns the synthesized expansion. -/
theorem generate_detailed_module_fallback (client : CompletionClient)
    (niche_name : String) (module : LearningModuleOutput)
    (answers : List (String × String)) (initial_path : LearningPathOutput)
    (hfail : client.detailedModule niche_name module answers initial_path = none)
    (t : String) (ts : List String) (htop : module.topics = t :: ts) :
    generate_detailed_module client niche_name module answers initial_path =
      Except.ok
        { moduleId := module.id,
          subtopics := module.topics.map fallback_subtopic,
          prerequisites := ["Basic understanding of programming concepts"],
          learningObjectives := module.topics.map (fun topic => "Understand the fundamentals of " ++ topic),
          projects := ["Build a simple project using " ++ t],
          detailedDescription := module.description } := by
  unfold generate_detailed_module
  rw [hfail, htop]

/-- C10: if a stage-1 module has an empty topics list and its stage-2 call
fails, the detail-fallback synthesis itself raises (indexing `topics[0]`),
the per-module handler catches this and keeps the original module unchanged,
and `generate_learning_path` still returns normally with that module in the
draft. -/
theorem empty_topics_detail_failure_passthrough (client : CompletionClient)
    (niche_name : String) (answers : List (String × String))
    (initial_path : LearningPathOutput) (module : LearningModuleOutput)
    (hinit : client.initialPath niche_name answers = some initial_path)
    (hmem : module ∈ initial_path.modules)
    (htopics : module.topics = [])
    (hfail : client.detailedModule niche_name module answers initial_path = none) :
    generate_detailed_module client niche_name module answers initial_path =
      Except.error Err.indexError ∧
    enhance_module client niche_name answers initial_path module = module ∧
    ∃ path, generate_learning_path client niche_name answers = Except.ok path ∧
      path.modules = initial_path.modules.map (enhance_module client niche_name answers initial_path) ∧
      module ∈ path.modules := by
  have hdm : generate_detailed_module client niche_name module answers initial_path =
      Except.error Err.indexError := by
    unfold generate_detailed_module
    rw [hfail, htopics]
  have hen : enhance_module client niche_name answers initial_path module = module := by
    unfold enhance_module enhance_module_attempt
    rw [hdm]
  refine ⟨hdm, hen, _,
    generate_learning_path_of_stage1_ok client niche_name answers initial_path hinit, rfl, ?_⟩
  exact hen ▸ List.mem_map_of_mem _ hmem

/-- C10 witness: a concrete one-module path with empty topics where stage 2
fails while stage 3 would succeed. -/
theorem empty_topics_detail_failure_passthrough_witness :
    generate_detailed_module emptyTopicsClient "Sample Niche" emptyTopicsModule [] emptyTopicsPath =
      Except.error Err.indexError ∧
    enhance_module emptyTopicsClient "Sample Niche" [] emptyTopicsPath emptyTopicsModule = emptyTopicsModule ∧
    ∃ path, generate_learning_path emptyTopicsClient "Sample Niche" [] = Except.ok path ∧
      path.modules = emptyTopicsPath.modules.map (enhance_module emptyTopicsClient "Sample Niche" [] emptyTopicsPath) ∧
      emptyTopicsModule ∈ path.modules :=
  empty_topics_detail_failure_passthrough emptyTopicsClient "Sample Niche" []
    emptyTopicsPath emptyTopicsModule rfl (by decide) rfl rfl

/-- C3 counterexample: with a client whose stage 1 fails but whose stage-2
and stage-3 calls would succeed with recognizable outputs, the returned draft
is exactly the framework fallback: none of its modules carries the stage-2
expansion the per-unit pipeline would have attached (all subtopics are
`none`, whereas pushing any module through the per-unit stages yields
`some distinctiveDM.subtopics`). -/
theorem stage1_fallback_skips_unit_stages_cex :
    generate_learning_path stage1FailsClient "Niche" [] =
      Except.ok (create_fallback_learning_path "Niche" []) ∧
    (create_fallback_learning_path "Niche" []).modules.map LearningModuleOutput.subtopics =
      [none, none, none] ∧
    (enhance_module stage1FailsClient "Niche" [] (create_fallback_learning_path "Niche" [])
        (fallback_fundamentals_module "Niche")).subtopics = some distinctiveDM.subtopics :=
  ⟨rfl, by decide, rfl⟩

/-- C3 amended: if the stage-1 framework call fails, `generate_learning_path`
invokes the framework-level fallback and returns its draft directly — the
fallback's modules do not pass through the per-unit stage-2/stage-3
pipeline. -/
theorem stage1_failure_returns_fallback_directly (client : CompletionClient)
    (niche_name : String) (answers : List (String × String))
    (h : client.initialPath niche_name answers = none) :
    generate_learning_path client niche_name answers =
      Except.ok (create_fallback_learning_path niche_name answers) := by
  unfold generate_learning_path generate_learning_path_attempt generate_initial_path
  rw [h]

/-- C3 amended witness: the always-failing client. -/
theorem stage1_failure_returns_fallback_directly_witness :
    generate_learning_path failingClient "Frontend Development" [] =
      Except.ok (create_fallback_learning_path "Frontend Development" []) :=
  stage1_failure_returns_fallback_directly failingClient "Frontend Development" [] rfl

/-- `_generate_verified_resources` never raises: a failed completion call is
replaced by the synthesized resource bundle. -/
theorem generate_verified_resources_ok (client : CompletionClient) (niche_name : String)
    (module_id : Int) (subtopics : List String) :
    ∃ vr, generate_verified_resources client niche_name module_id subtopics = Except.ok vr := by
  unfold generate_verified_resources
  cases client.verifiedResources niche_name module_id subtopics with
  | none => exact ⟨_, rfl⟩
  | some r => exact ⟨r, rfl⟩

/-- The titles of the synthesized subtopics are exactly the topic strings. -/
theorem fallback_subtopics_titles (l : List String) :
    (l.map fallback_subtopic).map SubTopic.title = l := by
  induction l with
  | nil => rfl
  | cons a l ih => simp only [List.map_cons, ih]; rfl

/-- Detail-stage failure with a nonempty topics list: the module is enhanced
with the synthesized expansion, and stage 3 runs on the synthesized subtopic
titles (which equal the module's topics). -/
theorem enhance_module_of_detail_fallback (client : CompletionClient)
    (niche_name : String) (answers : List (String × String))
    (initial_path : LearningPathOutput) (module : LearningModuleOutput)
    (t : String) (ts : List String) (htop : module.topics = t :: ts)
    (hfail : client.detailedModule niche_name module answers initial_path = none) :
    ∃ vr, generate_verified_resources client niche_name module.id module.topics = Except.ok vr ∧
      enhance_module client niche_name answers initial_path module =
        { id := module.id, title := module.title, timeline := module.timeline,
          difficulty := module.difficulty,
          description := module.description,
          topics := module.topics,
          resources := vr.resources,
          tips := module.tips,
          subtopics := some (module.topics.map fallback_subtopic),
          prerequisites := some ["Basic understanding of programming concepts"],
          learningObjectives := some (module.topics.map (fun topic => "Understand the fundamentals of " ++ topic)),
          projects := some ["Build a simple project using " ++ t] } := by
  obtain ⟨vr, hvr⟩ := generate_verified_resources_ok client niche_name module.id module.topics
  refine ⟨vr, hvr, ?_⟩
  have hdm := generate_detailed_module_fallback client niche_name module answers
    initial_path hfail t ts htop
  have hne : (module.topics.map fallback_subtopic).isEmpty = false := by
    rw [htop]; rfl
  unfold enhance_module enhance_module_attempt
  rw [hdm]
  simp only [hne, Bool.false_eq_true, if_false, fallback_subtopics_titles, hvr]

/-- C4 counterexample: stage 1 returns one module whose topics list is empty
and its stage-2 call fails.  Contrary to the claim, no synthesized expansion
is attached (the subtopics stay `none`, not an empty synthesized list) and
stage 3 does not execute for the unit (its resources remain the original
stage-1 resources, not the stage-3 output the client would have returned). -/
theorem detail_failure_recovery_cex :
    generate_learning_path emptyTopicsClient "Sample Niche" [] = Except.ok emptyTopicsPath ∧
    emptyTopicsPath.modules.map LearningModuleOutput.subtopics = [none] ∧
    emptyTopicsPath.modules.map LearningModuleOutput.resources = [[sampleResource]] ∧
    [sampleResource] ≠ distinctiveRV.resources :=
  ⟨rfl, rfl, rfl, by decide⟩

/-- C4 amended (restricted to units whose topics list is nonempty): a stage-2
failure for such a unit is recovered by a synthesized expansion with one
subtopic per topic, stage 3 still executes for the unit on the synthesized
subtopic titles (equal to the unit's topics), and every other unit's enhanced
module is exactly what it would be had this unit's stage-2 call not failed. -/
theorem detail_failure_isolated_for_nonempty_topics (client : CompletionClient)
    (niche_name : String) (answers : List (String × String))
    (initial_path : LearningPathOutput) (module : LearningModuleOutput)
    (hinit : client.initialPath niche_name answers = some initial_path)
    (hmem : module ∈ initial_path.modules)
    (htopics : module.topics ≠ [])
    (hfail : client.detailedModule niche_name module answers initial_path = none) :
    (∃ dm, generate_detailed_module client niche_name module answers initial_path = Except.ok dm ∧
        dm.subtopics.map SubTopic.title = module.topics ∧
        dm.subtopics.length = module.topics.length) ∧
    (∃ vr, generate_verified_resources client niche_name module.id module.topics = Except.ok vr ∧
        (enhance_module client niche_name answers initial_path module).resources = vr.resources) ∧
    (∀ client2 : CompletionClient,
        client2.initialPath = client.initialPath →
        client2.verifiedResources = client.verifiedResources →
        (∀ m2, m2 ≠ module →
          client2.detailedModule niche_name m2 answers initial_path =
            client.detailedModule niche_name m2 answers initial_path) →
        ∀ m2, m2 ≠ module →
          enhance_module client2 niche_name answers initial_path m2 =
            enhance_module client niche_name answers initial_path m2) ∧
    (∃ path, generate_learning_path client niche_name answers = Except.ok path ∧
        path.modules = initial_path.modules.map (enhance_module client niche_name answers initial_path)) := by
  obtain ⟨t, ts, htop⟩ := List.exists_cons_of_ne_nil htopics
  obtain ⟨vr, hvr, hen⟩ := enhance_module_of_detail_fallback client niche_name answers
    initial_path module t ts htop hfail
  refine ⟨?_, ⟨vr, hvr, ?_⟩, ?_, ?_⟩
  · refine ⟨_, generate_detailed_module_fallback client niche_name module answers
      initial_path hfail t ts htop, fallback_subtopics_titles module.topics, ?_⟩
    exact List.length_map _ _
  · rw [hen]
  · intro client2 h1 h3 hdm2 m2 hne2
    unfold enhance_module enhance_module_attempt generate_detailed_module generate_verified_resources
    rw [hdm2 m2 hne2, h3]
  · exact ⟨_, generate_learning_path_of_stage1_ok client niche_name answers initial_path hinit, rfl⟩

/-- C4 amended witness: stage 2 fails for the second sample module (topics
`["Gamma"]`) under `stage1OnlyClient`. -/
theorem detail_failure_isolated_for_nonempty_topics_witness :
    (∃ dm, generate_detailed_module stage1OnlyClient "Sample Niche" (sampleModule 2 ["Gamma"]) [] samplePath = Except.ok dm ∧
        dm.subtopics.map SubTopic.title = (sampleModule 2 ["Gamma"]).topics ∧
        dm.subtopics.length = (sampleModule 2 ["Gamma"]).topics.length) ∧
    (∃ vr, generate_verified_resources stage1OnlyClient "Sample Niche" (sampleModule 2 ["Gamma"]).id (sampleModule 2 ["Gamma"]).topics = Except.ok vr ∧
        (enhance_module stage1OnlyClient "Sample Niche" [] samplePath (sampleModule 2 ["Gamma"])).resources = vr.resources) ∧
    (∀ client2 : CompletionClient,
        client2.initialPath = stage1OnlyClient.initialPath →
        client2.verifiedResources = stage1OnlyClient.verifiedResources →
        (∀ m2, m2 ≠ sampleModule 2 ["Gamma"] →
          client2.detailedModule "Sample Niche" m2 [] samplePath =
            stage1OnlyClient.detailedModule "Sample Niche" m2 [] samplePath) →
        ∀ m2, m2 ≠ sampleModule 2 ["Gamma"] →
          enhance_module client2 "Sample Niche" [] samplePath m2 =
            enhance_module stage1OnlyClient "Sample Niche" [] samplePath m2) ∧
    (∃ path, generate_learning_path stage1OnlyClient "Sample Niche" [] = Except.ok path ∧
        path.modules = samplePath.modules.map (enhance_module stage1OnlyClient "Sample Niche" [] samplePath)) :=
  detail_failure_isolated_for_nonempty_topics stage1OnlyClient "Sample Niche" []
    samplePath (sampleModule 2 ["Gamma"]) rfl (by decide) (by decide) rfl

/-- C5: the detail-expansion fallback is deterministic and depends only on
the module's id, title, description and topics: two failing invocations with
modules agreeing on those fields — under arbitrary different clients, niche
names, answer maps, and path contexts — synthesize identical
`DetailedModuleOutput` results. -/
theorem detail_fallback_deterministic (c1 c2 : CompletionClient)
    (n1 n2 : String) (a1 a2 : List (String × String))
    (ctx1 ctx2 : LearningPathOutput) (m1 m2 : LearningModuleOutput)
    (hfail1 : c1.detailedModule n1 m1 a1 ctx1 = none)
    (hfail2 : c2.detailedModule n2 m2 a2 ctx2 = none)
    (hid : m1.id = m2.id) (htitle : m1.title = m2.title)
    (hdesc : m1.description = m2.description) (htop : m1.topics = m2.topics) :
    generate_detailed_module c1 n1 m1 a1 ctx1 = generate_detailed_module c2 n2 m2 a2 ctx2 := by
  unfold generate_detailed_module
  rw [hfail1, hfail2, hid, hdesc, htop]

/-- C5 witness: same id/title/description/topics, different everything else. -/
theorem detail_fallback_deterministic_witness :
    generate_detailed_module failingClient "Niche A" (sampleModule 3 ["Alpha"]) [] samplePath =
      generate_detailed_module stage1OnlyClient "Niche B"
        { sampleModule 3 ["Alpha"] with timeline := "9 weeks" } [("k", "v")] emptyTopicsPath :=
  detail_fallback_deterministic failingClient stage1OnlyClient "Niche A" "Niche B"
    [] [("k", "v")] samplePath emptyTopicsPath
    (sampleModule 3 ["Alpha"]) { sampleModule 3 ["Alpha"] with timeline := "9 weeks" }
    rfl rfl rfl rfl rfl rfl

/-- `extract_experience_level` can only produce one of three signals. -/
theorem extract_experience_level_cases (answers : List (String × String)) :
    extract_experience_level answers = "beginner" ∨
    extract_experience_level answers = "intermediate" ∨
    extract_experience_level answers = "advanced" := by
  induction answers with
  | nil => exact Or.inl rfl
  | cons p rest ih =>
    obtain ⟨k, v⟩ := p
    unfold extract_experience_level
    split
    · split
      · exact Or.inr (Or.inr rfl)
      · split
        · exact Or.inr (Or.inl rfl)
        · exact Or.inl rfl
    · exact ih

/-- A beginner signal selects fundamentals, intermediate and practical
modules, with ids 1, 2, 3. -/
theorem fallback_modules_beginner (niche_name : String) (answers : List (String × String))
    (h : extract_experience_level answers = "beginner") :
    (create_fallback_learning_path niche_name answers).modules =
      [fallback_fundamentals_module niche_name,
       fallback_intermediate_module niche_name 2,
       fallback_practical_module niche_name 3] := by
  unfold create_fallback_learning_path
  rw [h]
  simp

/-- An intermediate signal selects fundamentals, intermediate, advanced and
practical modules, with ids 1, 2, 3, 4. -/
theorem fallback_modules_intermediate (niche_name : String) (answers : List (String × String))
    (h : extract_experience_level answers = "intermediate") :
    (create_fallback_learning_path niche_name answers).modules =
      [fallback_fundamentals_module niche_name,
       fallback_intermediate_module niche_name 2,
       fallback_advanced_module niche_name 3,
       fallback_practical_module niche_name 4] := by
  unfold create_fallback_learning_path
  rw [h]
  simp

/-- An advanced signal selects intermediate, advanced and practical modules,
with ids 1, 2, 3. -/
theorem fallback_modules_advanced (niche_name : String) (answers : List (String × String))
    (h : extract_experience_level answers = "advanced") :
    (create_fallback_learning_path niche_name answers).modules =
      [fallback_intermediate_module niche_name 1,
       fallback_advanced_module niche_name 2,
       fallback_practical_module niche_name 3] := by
  unfold create_fallback_learning_path
  rw [h]
  simp

/-- C6: the framework fallback yields between 2 and 5 modules, selected by
the experience-level signal extracted from the answers (beginner or
intermediate signals include the fundamentals module; intermediate or
advanced signals include an advanced module), and the module ids are the
consecutive positive integers 1, 2, 3, ... -/
theorem fallback_path_module_selection (niche_name : String) (answers : List (String × String)) :
    2 ≤ (create_fallback_learning_path niche_name answers).modules.length ∧
    (create_fallback_learning_path niche_name answers).modules.length ≤ 5 ∧
    ((extract_experience_level answers = "beginner" ∨ extract_experience_level answers = "intermediate") →
      fallback_fundamentals_module niche_name ∈ (create_fallback_learning_path niche_name answers).modules) ∧
    ((extract_experience_level answers = "intermediate" ∨ extract_experience_level answers = "advanced") →
      ∃ k : Int, fallback_advanced_module niche_name k ∈ (create_fallback_learning_path niche_name answers).modules) ∧
    (create_fallback_learning_path niche_name answers).modules.map LearningModuleOutput.id =
      (List.range (create_fallback_learning_path niche_name answers).modules.length).map
        (fun i => (i : Int) + 1) := by
  rcases extract_experience_level_cases answers with h | h | h
  · rw [fallback_modules_beginner niche_name answers h, h]
    refine ⟨by simp, by simp, fun _ => by simp, fun hc => ?_, ?_⟩
    · rcases hc with hc | hc <;> exact absurd hc (by decide)
    · simp [fallback_fundamentals_module, fallback_intermediate_module, fallback_practical_module]
      decide
  · rw [fallback_modules_intermediate niche_name answers h, h]
    refine ⟨by simp, by simp, fun _ => by simp, fun _ => ⟨3, by simp⟩, ?_⟩
    simp [fallback_fundamentals_module, fallback_intermediate_module,
      fallback_advanced_module, fallback_practical_module]
    decide
  · rw [fallback_modules_advanced niche_name answers h, h]
    refine ⟨by simp, by simp, fun hc => ?_, fun _ => ⟨2, by simp⟩, ?_⟩
    · rcases hc with hc | hc <;> exact absurd hc (by decide)
    · simp [fallback_intermediate_module, fallback_advanced_module, fallback_practical_module]
      decide

/-- C6 witness: an intermediate-signal answers map on a concrete niche. -/
theorem fallback_path_module_selection_witness :
    2 ≤ (create_fallback_learning_path "Data Science" [("experience_level", "Intermediate with practical experience")]).modules.length ∧
    (create_fallback_learning_path "Data Science" [("experience_level", "Intermediate with practical experience")]).modules.length ≤ 5 ∧
    ((extract_experience_level [("experience_level", "Intermediate with practical experience")] = "beginner" ∨
        extract_experience_level [("experience_level", "Intermediate with practical experience")] = "intermediate") →
      fallback_fundamentals_module "Data Science" ∈
        (create_fallback_learning_path "Data Science" [("experience_level", "Intermediate with practical experience")]).modules) ∧
    ((extract_experience_level [("experience_level", "Intermediate with practical experience")] = "intermediate" ∨
        extract_experience_level [("experience_level", "Intermediate with practical experience")] = "advanced") →
      ∃ k : Int, fallback_advanced_module "Data Science" k ∈
        (create_fallback_learning_path "Data Science" [("experience_level", "Intermediate with practical experience")]).modules) ∧
    (create_fallback_learning_path "Data Science" [("experience_level", "Intermediate with practical experience")]).modules.map LearningModuleOutput.id =
      (List.range (create_fallback_learning_path "Data Science" [("experience_level", "Intermediate with practical experience")]).modules.length).map
        (fun i => (i : Int) + 1) :=
  fallback_path_module_selection "Data Science" [("experience_level", "Intermediate with practical experience")]

/-- Length of a flat-map that emits exactly three elements per input. -/
theorem flatMap_triple_length {α β : Type} (F : α → List β) (f g h : α → β)
    (hF : ∀ a, F a = [f a, g a, h a]) (l : List α) :
    (l.flatMap F).length = 3 * l.length := by
  induction l with
  | nil => rfl
  | cons a l ih =>
    rw [List.flatMap_cons, hF a, List.length_append, ih]
    simp [Nat.mul_succ]
    omega

/-- Indexing into a flat-map that emits exactly three elements per input:
positions `3*i`, `3*i+1`, `3*i+2` hold the three outputs for input `i`. -/
theorem flatMap_triple_getElem {α β : Type} (F : α → List β) (f g h : α → β)
    (hF : ∀ a, F a = [f a, g a, h a]) (l : List α) (i : Nat) (hi : i < l.length) :
    (l.flatMap F)[3 * i]? = some (f (l.get ⟨i, hi⟩)) ∧
    (l.flatMap F)[3 * i + 1]? = some (g (l.get ⟨i, hi⟩)) ∧
    (l.flatMap F)[3 * i + 2]? = some (h (l.get ⟨i, hi⟩)) := by
  induction l generalizing i with
  | nil => exact absurd hi (Nat.not_lt_zero i)
  | cons a l ih =>
    rw [List.flatMap_cons, hF a]
    cases i with
    | zero => refine ⟨?_, ?_, ?_⟩ <;> simp
    | succ j =>
      obtain ⟨h1, h2, h3⟩ := ih j (Nat.lt_of_succ_lt_succ hi)
      have e0 : 3 * (j + 1) = 3 * j + 3 := by ring
      have e1 : 3 * (j + 1) + 1 = (3 * j + 1) + 3 := by ring
      have e2 : 3 * (j + 1) + 2 = (3 * j + 2) + 3 := by ring
      refine ⟨?_, ?_, ?_⟩
      · rw [e0]
        simpa using h1
      · rw [e1]
        simpa using h2
      · rw [e2]
        simpa using h3

/-- C7: when the stage-3 resource call fails for a module, the synthesized
`ResourceVerificationOutput` carries that module's id and holds, per subtopic
in subtopic order, exactly three resources — documentation, tutorial, video —
each free, with links templated from the subtopic title. -/
theorem resource_fallback_shape (client : CompletionClient) (niche_name : String)
    (module_id : Int) (subtopics : List String)
    (hfail : client.verifiedResources niche_name module_id subtopics = none) :
    ∃ out, generate_verified_resources client niche_name module_id subtopics = Except.ok out ∧
      out.moduleId = module_id ∧
      out.resources.length = 3 * subtopics.length ∧
      ∀ i (hi : i < subtopics.length),
        out.resources[3 * i]? = some
          { type := "documentation",
            name := "Official " ++ subtopics.get ⟨i, hi⟩ ++ " Documentation",
            link := "https://developer.mozilla.org/en-US/docs/Web/" ++
              replaceSpace (pyLower (subtopics.get ⟨i, hi⟩)) "_",
            description := some ("Comprehensive documentation for " ++ subtopics.get ⟨i, hi⟩),
            isFree := true,
            estimatedTime := some "1-2 hours" } ∧
        out.resources[3 * i + 1]? = some
          { type := "tutorial",
            name := subtopics.get ⟨i, hi⟩ ++ " Tutorial for Beginners",
            link := "https://www.freecodecamp.org/news/" ++
              replaceSpace (pyLower (subtopics.get ⟨i, hi⟩)) "-" ++ "-tutorial/",
            description := some ("Step-by-step tutorial on " ++ subtopics.get ⟨i, hi⟩ ++ " with practical examples"),
            isFree := true,
            estimatedTime := some "3-4 hours" } ∧
        out.resources[3 * i + 2]? = some
          { type := "video",
            name := subtopics.get ⟨i, hi⟩ ++ " Crash Course",
            link := "https://www.youtube.com/results?search_query=" ++
              replaceSpace (pyLower (subtopics.get ⟨i, hi⟩)) "+" ++ "+tutorial",
            description := some ("Video tutorials explaining " ++ subtopics.get ⟨i, hi⟩ ++ " concepts"),
            isFree := true,
            estimatedTime := some "1-2 hours" } := by
  have hout : generate_verified_resources client niche_name module_id subtopics =
      Except.ok { moduleId := module_id, resources := subtopics.flatMap fallback_subtopic_resources } := by
    unfold generate_verified_resources
    rw [hfail]
  refine ⟨_, hout, rfl, ?_, ?_⟩
  · exact flatMap_triple_length fallback_subtopic_resources _ _ _ (fun a => rfl) subtopics
  · intro i hi
    exact flatMap_triple_getElem fallback_subtopic_resources _ _ _ (fun a => rfl) subtopics i hi

/-- C7 witness: the failing client, module id 5, one two-word subtopic. -/
theorem resource_fallback_shape_witness :
    ∃ out, generate_verified_resources failingClient "Sample Niche" 5 ["Data Frames"] = Except.ok out ∧
      out.moduleId = 5 ∧
      out.resources.length = 3 * (["Data Frames"] : List String).length ∧
      ∀ i (hi : i < (["Data Frames"] : List String).length),
        out.resources[3 * i]? = some
          { type := "documentation",
            name := "Official " ++ (["Data Frames"] : List String).get ⟨i, hi⟩ ++ " Documentation",
            link := "https://developer.mozilla.org/en-US/docs/Web/" ++
              replaceSpace (pyLower ((["Data Frames"] : List String).get ⟨i, hi⟩)) "_",
            description := some ("Comprehensive documentation for " ++ (["Data Frames"] : List String).get ⟨i, hi⟩),
            isFree := true,
            estimatedTime := some "1-2 hours" } ∧
        out.resources[3 * i + 1]? = some
          { type := "tutorial",
            name := (["Data Frames"] : List String).get ⟨i, hi⟩ ++ " Tutorial for Beginners",
            link := "https://www.freecodecamp.org/news/" ++
              replaceSpace (pyLower ((["Data Frames"] : List String).get ⟨i, hi⟩)) "-" ++ "-tutorial/",
            description := some ("Step-by-step tutorial on " ++ (["Data Frames"] : List String).get ⟨i, hi⟩ ++ " with practical examples"),
            isFree := true,
            estimatedTime := some "3-4 hours" } ∧
        out.resources[3 * i + 2]? = some
          { type := "video",
            name := (["Data Frames"] : List String).get ⟨i, hi⟩ ++ " Crash Course",
            link := "https://www.youtube.com/results?search_query=" ++
              replaceSpace (pyLower ((["Data Frames"] : List String).get ⟨i, hi⟩)) "+" ++ "+tutorial",
            description := some ("Video tutorials explaining " ++ (["Data Frames"] : List String).get ⟨i, hi⟩ ++ " concepts"),
            isFree := true,
            estimatedTime := some "1-2 hours" } :=
  resource_fallback_shape failingClient "Sample Niche" 5 ["Data Frames"] rfl

/-- Lookup in an association list finds the key just inserted at the head. -/
theorem lookup_cons_self {β : Type} (k : String) (v : β) (l : List (String × β)) :
    List.lookup k ((k, v) :: l) = some v := by
  simp [List.lookup]

/-- A cache hit returns the cached questions with no service call and leaves
the cache unchanged. -/
theorem get_questions_cached (qc : String → Option NicheQuestionsOutput)
    (cache : QuestionsCache) (niche_id : Int) (use_ai : Bool) (qs : List PathQuestion)
    (h : List.lookup (cache_key niche_id use_ai) cache = some qs) :
    get_questions_for_niche qc cache niche_id use_ai =
      { result := Except.ok qs, cache := cache, serviceCalls := 0 } := by
  unfold get_questions_for_niche
  simp only []
  rw [h]

/-- A cache miss on an unknown niche id raises the 404 and changes nothing. -/
theorem get_questions_uncached_notfound (qc : String → Option NicheQuestionsOutput)
    (cache : QuestionsCache) (niche_id : Int) (use_ai : Bool)
    (hmiss : List.lookup (cache_key niche_id use_ai) cache = none)
    (hfind : get_all_niches.find? (fun n => n.id == niche_id) = none) :
    get_questions_for_niche qc cache niche_id use_ai =
      { result := Except.error (HttpError.notFound ("Niche with ID " ++ toString niche_id ++ " not found")),
        cache := cache, serviceCalls := 0 } := by
  unfold get_questions_for_niche
  simp only []
  rw [hmiss, hfind]

/-- A cache miss on a known niche id generates the questions, caches them
under the key, and makes one service call exactly when `use_ai` is set. -/
theorem get_questions_uncached_found (qc : String → Option NicheQuestionsOutput)
    (cache : QuestionsCache) (niche_id : Int) (use_ai : Bool) (niche : Niche)
    (hmiss : List.lookup (cache_key niche_id use_ai) cache = none)
    (hfind : get_all_niches.find? (fun n => n.id == niche_id) = some niche) :
    get_questions_for_niche qc cache niche_id use_ai =
      { result := Except.ok (if use_ai then generate_questions_for_niche qc niche.name
                             else get_static_questions_for_niche niche_id),
        cache := (cache_key niche_id use_ai,
                  if use_ai then generate_questions_for_niche qc niche.name
                  else get_static_questions_for_niche niche_id) :: cache,
        serviceCalls := if use_ai then 1 else 0 } := by
  unfold get_questions_for_niche
  simp only []
  rw [hmiss, hfind]

/-- Once the key is cached, a run of same-key calls makes no service call. -/
theorem run_question_calls_cached (qc : String → Option NicheQuestionsOutput)
    (niche_id : Int) (use_ai : Bool) (qs : List PathQuestion) :
    ∀ (reqs : List (Int × Bool)) (cache : QuestionsCache),
    (∀ p ∈ reqs, p = (niche_id, use_ai)) →
    List.lookup (cache_key niche_id use_ai) cache = some qs →
    (run_question_calls qc cache reqs).2 = 0 := by
  intro reqs
  induction reqs with
  | nil => intro cache _ _; rfl
  | cons p rest ih =>
    intro cache hall hcached
    have hp : p = (niche_id, use_ai) := hall p (List.mem_cons_self p rest)
    subst hp
    unfold run_question_calls
    rw [get_questions_cached qc cache niche_id use_ai qs hcached]
    simpa using ih cache (fun q hq => hall q (List.mem_cons_of_mem _ hq)) hcached

/-- A run of same-key calls never makes more than one service call. -/
theorem run_question_calls_le_one (qc : String → Option NicheQuestionsOutput)
    (niche_id : Int) (use_ai : Bool) :
    ∀ (reqs : List (Int × Bool)) (cache : QuestionsCache),
    (∀ p ∈ reqs, p = (niche_id, use_ai)) →
    (run_question_calls qc cache reqs).2 ≤ 1 := by
  intro reqs
  induction reqs with
  | nil => intro cache _; exact Nat.zero_le 1
  | cons p rest ih =>
    intro cache hall
    have hp : p = (niche_id, use_ai) := hall p (List.mem_cons_self p rest)
    subst hp
    have hrest : ∀ q ∈ rest, q = (niche_id, use_ai) :=
      fun q hq => hall q (List.mem_cons_of_mem _ hq)
    unfold run_question_calls
    cases hlk : List.lookup (cache_key niche_id use_ai) cache with
    | some qs =>
      rw [get_questions_cached qc cache niche_id use_ai qs hlk]
      have h0 := run_question_calls_cached qc niche_id use_ai qs rest cache hrest hlk
      simp [h0]
    | none =>
      cases hfind : get_all_niches.find? (fun n => n.id == niche_id) with
      | none =>
        rw [get_questions_uncached_notfound qc cache niche_id use_ai hlk hfind]
        simpa using ih cache hrest
      | some niche =>
        rw [get_questions_uncached_found qc cache niche_id use_ai niche hlk hfind]
        have h0 := run_question_calls_cached qc niche_id use_ai
          (if use_ai then generate_questions_for_niche qc niche.name
           else get_static_questions_for_niche niche_id)
          rest
          ((cache_key niche_id use_ai,
            if use_ai then generate_questions_for_niche qc niche.name
            else get_static_questions_for_niche niche_id) :: cache)
          hrest
          (lookup_cons_self (cache_key niche_id use_ai) _ cache)
        cases use_ai <;> simp at h0 <;> simp [h0]

/-- C8: per `(niche_id, use_ai)` key, a whole run of identical
`get_questions_for_niche` calls invokes the completion service at most once,
and once a call has succeeded, repeating it on the resulting cache returns
the same cached question list with zero service invocations and an unchanged
cache. -/
theorem questions_memoized (qc : String → Option NicheQuestionsOutput)
    (niche_id : Int) (use_ai : Bool) (reqs : List (Int × Bool))
    (hreqs : ∀ p ∈ reqs, p = (niche_id, use_ai)) :
    (run_question_calls qc [] reqs).2 ≤ 1 ∧
    ∀ (cache : QuestionsCache) (qs : List PathQuestion),
      (get_questions_for_niche qc cache niche_id use_ai).result = Except.ok qs →
      get_questions_for_niche qc (get_questions_for_niche qc cache niche_id use_ai).cache niche_id use_ai =
        { result := Except.ok qs,
          cache := (get_questions_for_niche qc cache niche_id use_ai).cache,
          serviceCalls := 0 } := by
  constructor
  · exact run_question_calls_le_one qc niche_id use_ai reqs [] hreqs
  · intro cache qs hres
    cases hlk : List.lookup (cache_key niche_id use_ai) cache with
    | some q2 =>
      have hcall := get_questions_cached qc cache niche_id use_ai q2 hlk
      rw [hcall] at hres ⊢
      have hq : q2 = qs := by simpa using hres
      subst hq
      exact get_questions_cached qc cache niche_id use_ai q2 hlk
    | none =>
      cases hfind : get_all_niches.find? (fun n => n.id == niche_id) with
      | none =>
        rw [get_questions_uncached_notfound qc cache niche_id use_ai hlk hfind] at hres
        simp at hres
      | some niche =>
        have hcall := get_questions_uncached_found qc cache niche_id use_ai niche hlk hfind
        rw [hcall] at hres ⊢
        have hq : (if use_ai then generate_questions_for_niche qc niche.name
                   else get_static_questions_for_niche niche_id) = qs := by
          simpa using hres
        cases hq
        exact get_questions_cached qc _ niche_id use_ai _
          (lookup_cons_self (cache_key niche_id use_ai) _ cache)

/-- C8 witness: two AI-mode calls for niche 1 with a counting double that
always fails (the fallback questions still get cached). -/
theorem questions_memoized_witness :
    (run_question_calls (fun _ => none) [] [((1 : Int), true), ((1 : Int), true)]).2 ≤ 1 ∧
    ∀ (cache : QuestionsCache) (qs : List PathQuestion),
      (get_questions_for_niche (fun _ => none) cache 1 true).result = Except.ok qs →
      get_questions_for_niche (fun _ => none) (get_questions_for_niche (fun _ => none) cache 1 true).cache 1 true =
        { result := Except.ok qs,
          cache := (get_questions_for_niche (fun _ => none) cache 1 true).cache,
          serviceCalls := 0 } :=
  questions_memoized (fun _ => none) 1 true [((1 : Int), true), ((1 : Int), true)] (by decide)

/-- C9: absent a cache hit, `get_questions_for_niche` raises the
NotFound-kind error exactly when the niche id is not in the fixed catalog;
and for any id in the catalog the call never raises — AI failure degrades to
the fallback question set instead of erroring. -/
theorem questions_notfound_iff_unknown_niche (qc : String → Option NicheQuestionsOutput)
    (cache : QuestionsCache) (niche_id : Int) (use_ai : Bool) :
    (List.lookup (cache_key niche_id use_ai) cache = none →
      ((∃ msg, (get_questions_for_niche qc cache niche_id use_ai).result =
          Except.error (HttpError.notFound msg)) ↔
        get_all_niches.find? (fun n => n.id == niche_id) = none)) ∧
    ((∃ niche, get_all_niches.find? (fun n => n.id == niche_id) = some niche) →
      ∃ qs, (get_questions_for_niche qc cache niche_id use_ai).result = Except.ok qs) := by
  constructor
  · intro hmiss
    constructor
    · rintro ⟨msg, hres⟩
      cases hfind : get_all_niches.find? (fun n => n.id == niche_id) with
      | none => rfl
      | some niche =>
        rw [get_questions_uncached_found qc cache niche_id use_ai niche hmiss hfind] at hres
        simp at hres
    · intro hfind
      exact ⟨"Niche with ID " ++ toString niche_id ++ " not found",
        by rw [get_questions_uncached_notfound qc cache niche_id use_ai hmiss hfind]⟩
  · rintro ⟨niche, hfind⟩
    cases hlk : List.lookup (cache_key niche_id use_ai) cache with
    | some qs =>
      exact ⟨qs, by rw [get_questions_cached qc cache niche_id use_ai qs hlk]⟩
    | none =>
      exact ⟨_, by rw [get_questions_uncached_found qc cache niche_id use_ai niche hlk hfind]⟩

/-- C9 witness: id 9999 is unknown, id 1 is known, on the empty cache with a
failing question double. -/
theorem questions_notfound_iff_unknown_niche_witness :
    ((List.lookup (cache_key 9999 true) ([] : QuestionsCache) = none →
      ((∃ msg, (get_questions_for_niche (fun _ => none) [] 9999 true).result =
          Except.error (HttpError.notFound msg)) ↔
        get_all_niches.find? (fun n => n.id == (9999 : Int)) = none)) ∧
    ((∃ niche, get_all_niches.find? (fun n => n.id == (9999 : Int)) = some niche) →
      ∃ qs, (get_questions_for_niche (fun _ => none) [] 9999 true).result = Except.ok qs)) ∧
    ((∃ niche, get_all_niches.find? (fun n => n.id == (1 : Int)) = some niche) →
      ∃ qs, (get_questions_for_niche (fun _ => none) [] 1 true).result = Except.ok qs) :=
  ⟨questions_notfound_iff_unknown_niche (fun _ => none) [] 9999 true,
   (questions_notfound_iff_unknown_niche (fun _ => none) [] 1 true).2⟩
